import Mathlib

/-!
Shallow embedding of the thirdweb TypeScript SDK wrapper classes
(MarketplaceDirect, ContractPrimarySale, Erc20BatchMintable) and proofs of
the specification claims about them.

External contract state (listings, offers, balances, interface support,
block timestamps) and the external helper layer (normalizePriceValue,
isNativeToken, isTokenApprovedForMarketplace, event parsing, metadata
fetching) are modelled as an oracle structure Chain.  Each wrapper method
becomes a pure Lean function of the object state, the oracle and its
arguments, returning the object state after the call, the result
(Except for methods that can throw) and a trace of the externally visible
actions it performed, in order.  BigNumber values are modelled as Nat
(they are non-negative integers on-chain), JavaScript Date.getTime()
values as Int milliseconds, and addresses as strings.
-/

/-- A human-readable price or amount (string or number in TypeScript). -/
abbrev Price := String

/-- A human-readable token amount, same representation as Price. -/
abbrev Amount := String

/-- Mapped currency value metadata, kept abstract (only passed through). -/
abbrev CurrencyValue := String

/-- NFT metadata fetched from storage, kept abstract (only passed through). -/
abbrev NFTMetadata := String

/-- A mapped marketplace offer domain object, kept abstract. -/
abbrev Offer := String

/-- ethers constants.AddressZero. -/
def AddressZero : String := "0x0000000000000000000000000000000000000000"

/-- InterfaceId_IERC721 from constants/contract. -/
def InterfaceId_IERC721 : String := "0x80ac58cd"

/-- InterfaceId_IERC1155 from constants/contract. -/
def InterfaceId_IERC1155 : String := "0xd9b67a26"

/-- ethers constants.MaxUint256. -/
def MaxUint256 : Int := 2 ^ 256 - 1

namespace ListingType

/-- ListingType.Direct numeric enum value. -/
def Direct : Nat := 0

/-- ListingType.Auction numeric enum value. -/
def Auction : Nat := 1

end ListingType

/-- Raw listing struct as returned by the Marketplace contract. -/
structure ListingStruct where
  listingId : Nat
  tokenOwner : String
  assetContract : String
  tokenId : Nat
  startTime : Nat
  endTime : Nat
  quantity : Nat
  currency : String
  reservePricePerToken : Nat
  buyoutPricePerToken : Nat
  listingType : Nat
deriving DecidableEq, Repr

/-- Raw offer struct as returned by the Marketplace contract offers mapping. -/
structure OfferStruct where
  listingId : Nat
  offeror : String
  quantityWanted : Nat
  currency : String
  pricePerToken : Nat
deriving DecidableEq, Repr

/-- The DirectListing domain object produced by MarketplaceDirect.mapListing. -/
structure DirectListing where
  assetContractAddress : String
  buyoutPrice : Nat
  currencyContractAddress : String
  buyoutCurrencyValuePerToken : CurrencyValue
  id : String
  tokenId : Nat
  quantity : Nat
  startTimeInSeconds : Nat
  asset : NFTMetadata
  secondsUntilEnd : Nat
  sellerAddress : String
  type : Nat
deriving DecidableEq, Repr

/-- Input for MarketplaceDirect.createListing.  startTimestamp is a Date;
its getTime value in milliseconds is what createListing reads. -/
structure NewDirectListing where
  assetContractAddress : String
  tokenId : Nat
  startTimestampMs : Int
  listingDurationInSeconds : Nat
  quantity : Nat
  currencyContractAddress : String
  buyoutPricePerToken : Price
deriving DecidableEq, Repr

/-- Input element for Erc20BatchMintable.to. -/
structure TokenMintInput where
  toAddress : String
  amount : Amount
deriving DecidableEq, Repr

/-- The ListingParametersStruct argument of the createListing transaction. -/
structure ListingParams where
  assetContract : String
  tokenId : Nat
  buyoutPricePerToken : Nat
  currencyToAccept : String
  listingType : Nat
  quantityToList : Nat
  reservePricePerToken : Nat
  secondsUntilEndTime : Nat
  startTime : Int
deriving DecidableEq, Repr

/-- An ABI-encoded call produced by interface.encodeFunctionData; the
encoding itself is external (ethers), so it is modelled injectively by the
function name and arguments. -/
inductive EncodedCall where
  | mintTo (toAddress : String) (amount : Nat)
deriving DecidableEq, Repr

/-- A transaction submitted through contractWrapper.sendTransaction,
identified by the contract function name and its arguments. -/
inductive TxCall where
  | createListing (params : ListingParams)
  | offer (listingId : Nat) (quantityDesired : Nat) (currency : String)
      (pricePerToken : Nat) (expirationTimestamp : Int)
  | acceptOffer (listingId : Nat) (offeror : String) (currency : String)
      (pricePerToken : Nat)
  | buy (listingId : Nat) (buyFor : String) (quantity : Nat)
      (currency : String) (value : Nat)
  | updateListing (listingId : String) (quantity : Nat) (reservePrice : Nat)
      (buyoutPrice : Nat) (currency : String) (startTime : Nat)
      (secondsUntilEnd : Nat)
  | cancelDirectListing (listingId : Nat)
  | setPrimarySaleRecipient (recipient : String)
deriving DecidableEq, Repr

/-- Externally visible actions a method performs, in program order. -/
inductive SdkAction where
  | handleTokenApproval (marketplace : String) (assetContract : String)
      (tokenId : Nat) (owner : String)
  | normalizePriceCall (price : Price) (currency : String)
  | readListing (listingId : Nat)
  | readOffer (listingId : Nat) (address : String)
  | setAllowance (value : Nat) (currency : String)
  | sendTx (tx : TxCall)
  | multiCall (calls : List EncodedCall)
deriving DecidableEq, Repr

/-- Errors thrown by the wrapper methods. -/
inductive SdkError where
  | listingNotFound (marketplace : String) (listingId : String)
  | wrongListingType (marketplace : String) (listingId : String)
      (actualType : String) (expectedType : String)
  | invariantViolation (message : String)
  | invalidListingParam
  | generic (message : String)
deriving DecidableEq, Repr

/-- Result of running a method: the object state after the call, the
returned value or thrown error, and the trace of actions performed. -/
structure MRes (Self : Type) (α : Type) where
  self : Self
  result : Except SdkError α
  trace : List SdkAction
deriving Repr

/-- Transaction receipts carry no structure the claims inspect. -/
abbrev Receipt := Unit

/-- TransactionResult: a wrapper holding the receipt. -/
structure TransactionResult where
  receipt : Receipt
deriving DecidableEq, Repr

/-- TransactionResultWithId: receipt plus the id parsed from the logs. -/
structure TransactionResultWithId where
  id : Nat
  receipt : Receipt
deriving DecidableEq, Repr

/-- Oracle for all external state and external helper functions: the
blockchain RPC layer, the ethers library and the SDK helper modules that
sit outside the wrapper classes.  Each field is an arbitrary total
function, so theorems quantified over Chain hold for every possible
external behaviour. -/
structure Chain where
  readContractAddress : String
  signerAddress : String
  blockTimestamp : Nat
  listings : Nat → ListingStruct
  offers : Nat → String → OfferStruct
  isAddress : String → Bool
  isNativeToken : String → Bool
  normalizePrice : Price → String → Nat
  approvedForMarketplace : String → String → Nat → String → Bool
  supportsInterface : String → String → Bool
  ownerOf : String → Nat → String
  balanceOf : String → String → Nat → Nat
  validNewListingParams : NewDirectListing → Bool
  parseListingAddedIds : List Nat
  fetchCurrencyValue : String → Nat → CurrencyValue
  fetchTokenMetadata : String → Nat → NFTMetadata
  mapOfferResult : Nat → OfferStruct → Offer
  normalizeAmount : Amount → Nat
  primarySaleRecipient : String

/-- JavaScript String.prototype.toLowerCase, as applied to addresses:
addresses are ASCII hex strings, on which lowercasing is the
character-wise ASCII lowercase map. -/
def strToLower (s : String) : String := ⟨s.data.map Char.toLower⟩

/-- JavaScript truthiness fallback a || b for an optional numeric
BigNumberish argument: undefined falls back, and so does the number 0,
because 0 is falsy in JavaScript. -/
def jsOrNat (q : Option Nat) (fallback : Nat) : Nat :=
  match q with
  | none => fallback
  | some n => if n = 0 then fallback else n

/-- JavaScript truthiness fallback for an optional string argument: the
empty string is falsy. -/
def jsOrStr (s : Option String) (fallback : String) : String :=
  match s with
  | none => fallback
  | some r => if r = "" then fallback else r

/-- The MarketplaceDirect wrapper object: its two instance fields, kept as
abstract references. -/
structure MarketplaceDirect where
  contractWrapper : Nat
  storage : Nat
deriving DecidableEq, Repr

namespace MarketplaceDirect

/-- getAddress: address of the wrapped read contract. -/
def getAddress (_self : MarketplaceDirect) (env : Chain) : String :=
  env.readContractAddress

/-- mapListing: maps the raw contract listing struct to the DirectListing
domain object. -/
def mapListing (_self : MarketplaceDirect) (env : Chain)
    (listing : ListingStruct) : DirectListing :=
  { assetContractAddress := listing.assetContract
    buyoutPrice := listing.buyoutPricePerToken
    currencyContractAddress := listing.currency
    buyoutCurrencyValuePerToken :=
      env.fetchCurrencyValue listing.currency listing.buyoutPricePerToken
    id := toString listing.listingId
    tokenId := listing.tokenId
    quantity := listing.quantity
    startTimeInSeconds := listing.startTime
    asset := env.fetchTokenMetadata listing.assetContract listing.tokenId
    secondsUntilEnd := listing.endTime
    sellerAddress := listing.tokenOwner
    type := ListingType.Direct }

/-- getListing: fetch a listing by id, throwing ListingNotFoundError for
the zero asset contract and WrongListingTypeError for a non-direct type. -/
def getListing (self : MarketplaceDirect) (env : Chain) (listingId : Nat) :
    MRes MarketplaceDirect DirectListing :=
  let listing := env.listings listingId
  let trace := [SdkAction.readListing listingId]
  if listing.assetContract = AddressZero then
    ⟨self, .error (.listingNotFound (self.getAddress env) (toString listingId)),
      trace⟩
  else if listing.listingType ≠ ListingType.Direct then
    ⟨self, .error (.wrongListingType (self.getAddress env) (toString listingId)
      "Auction" "Direct"), trace⟩
  else
    ⟨self, .ok (self.mapListing env listing), trace⟩

/-- validateListing: getListing with logging on failure, rethrowing the
same error. -/
def validateListing (self : MarketplaceDirect) (env : Chain)
    (listingId : Nat) : MRes MarketplaceDirect DirectListing :=
  self.getListing env listingId

/-- getActiveOffer: validates the listing, checks the address is
syntactically valid, reads the offers mapping, and returns none when the
stored offeror is the zero address. -/
def getActiveOffer (self : MarketplaceDirect) (env : Chain)
    (listingId : Nat) (address : String) :
    MRes MarketplaceDirect (Option Offer) :=
  let v := self.validateListing env listingId
  match v.result with
  | .error e => ⟨v.self, .error e, v.trace⟩
  | .ok _ =>
    if env.isAddress address then
      let offers := env.offers listingId address
      let trace := v.trace ++ [SdkAction.readOffer listingId address]
      if offers.offeror = AddressZero then
        ⟨v.self, .ok none, trace⟩
      else
        ⟨v.self, .ok (some (env.mapOfferResult listingId offers)), trace⟩
    else
      ⟨v.self, .error (.invariantViolation "Address must be a valid address"),
        v.trace⟩

/-- createListing: validates the parameters, handles token approval,
normalizes the buyout price, clamps the start time to the latest block
timestamp, submits the createListing transaction and parses the new
listing id from the ListingAdded event. -/
def createListing (self : MarketplaceDirect) (env : Chain)
    (listing : NewDirectListing) :
    MRes MarketplaceDirect TransactionResultWithId :=
  if env.validNewListingParams listing then
    let t1 := [SdkAction.handleTokenApproval (self.getAddress env)
      listing.assetContractAddress listing.tokenId env.signerAddress]
    let normalizedPricePerToken := env.normalizePrice
      listing.buyoutPricePerToken listing.currencyContractAddress
    let t2 := t1 ++ [SdkAction.normalizePriceCall listing.buyoutPricePerToken
      listing.currencyContractAddress]
    let listingStartTime0 : Int := Int.fdiv listing.startTimestampMs 1000
    let blockTime : Int := env.blockTimestamp
    let listingStartTime :=
      if listingStartTime0 < blockTime then blockTime else listingStartTime0
    let params : ListingParams :=
      { assetContract := listing.assetContractAddress
        tokenId := listing.tokenId
        buyoutPricePerToken := normalizedPricePerToken
        currencyToAccept := listing.currencyContractAddress
        listingType := ListingType.Direct
        quantityToList := listing.quantity
        reservePricePerToken := normalizedPricePerToken
        secondsUntilEndTime := listing.listingDurationInSeconds
        startTime := listingStartTime }
    let t3 := t2 ++ [SdkAction.sendTx (.createListing params)]
    let res : Except SdkError TransactionResultWithId :=
      match env.parseListingAddedIds.head? with
      | none => .error (.generic "no ListingAdded event in receipt")
      | some id => .ok ⟨id, ()⟩
    ⟨self, res, t3⟩
  else
    ⟨self, .error .invalidListingParam, []⟩

/-- makeOffer: rejects native-token currencies, normalizes the offer
price, fetches the listing (wrapping any failure), sets the ERC20
allowance to price times quantity and submits the offer transaction. -/
def makeOffer (self : MarketplaceDirect) (env : Chain) (listingId : Nat)
    (quantityDesired : Nat) (currencyContractAddress : String)
    (pricePerToken : Price) (expirationDateMs : Option Int) :
    MRes MarketplaceDirect TransactionResult :=
  if env.isNativeToken currencyContractAddress then
    ⟨self, .error (.generic
      "You must use the wrapped native token address when making an offer with a native token"),
      []⟩
  else
    let normalizedPrice := env.normalizePrice pricePerToken
      currencyContractAddress
    let t1 := [SdkAction.normalizePriceCall pricePerToken
      currencyContractAddress]
    let g := self.getListing env listingId
    match g.result with
    | .error _ =>
      ⟨g.self, .error (.generic
        ("Error getting the listing with id " ++ toString listingId)),
        t1 ++ g.trace⟩
    | .ok _ =>
      let quantity := quantityDesired
      let value := normalizedPrice * quantity
      let t2 := t1 ++ g.trace ++
        [SdkAction.setAllowance value currencyContractAddress]
      let expirationTimestamp : Int :=
        match expirationDateMs with
        | none => MaxUint256
        | some ms => Int.fdiv ms 1000
      let t3 := t2 ++ [SdkAction.sendTx (.offer listingId quantityDesired
        currencyContractAddress normalizedPrice expirationTimestamp)]
      ⟨g.self, .ok ⟨()⟩, t3⟩

/-- acceptOffer: validates the listing, reads the stored offer and submits
the acceptOffer transaction with its currency and price. -/
def acceptOffer (self : MarketplaceDirect) (env : Chain) (listingId : Nat)
    (addressOfOfferor : String) : MRes MarketplaceDirect TransactionResult :=
  let v := self.validateListing env listingId
  match v.result with
  | .error e => ⟨v.self, .error e, v.trace⟩
  | .ok _ =>
    let offer := env.offers listingId addressOfOfferor
    let t := v.trace ++ [SdkAction.readOffer listingId addressOfOfferor,
      SdkAction.sendTx (.acceptOffer listingId addressOfOfferor offer.currency
        offer.pricePerToken)]
    ⟨v.self, .ok ⟨()⟩, t⟩

/-- isStillValidListing: a listing stays valid when the marketplace is
still approved for the token and the seller still owns it (ERC721) or
still holds enough balance (ERC1155); the ERC721 branch takes priority
when the asset supports both interfaces, and the quantity argument falls
back to listing.quantity through JavaScript truthiness. -/
def isStillValidListing (self : MarketplaceDirect) (env : Chain)
    (listing : DirectListing) (quantity : Option Nat) : Bool :=
  let approved := env.approvedForMarketplace (self.getAddress env)
    listing.assetContractAddress listing.tokenId listing.sellerAddress
  if ¬ approved then
    false
  else
    let isERC721 := env.supportsInterface listing.assetContractAddress
      InterfaceId_IERC721
    let isERC1155 := env.supportsInterface listing.assetContractAddress
      InterfaceId_IERC1155
    if isERC721 then
      strToLower (env.ownerOf listing.assetContractAddress listing.tokenId) =
        strToLower listing.sellerAddress
    else if isERC1155 then
      let balance := env.balanceOf listing.assetContractAddress
        listing.sellerAddress listing.tokenId
      balance ≥ jsOrNat quantity listing.quantity
    else
      false

/-- buyoutListing: validates the listing, rejects it when
isStillValidListing is false, then sets the ERC20 allowance to
buyoutPrice times quantity and submits the buy transaction with that
value. -/
def buyoutListing (self : MarketplaceDirect) (env : Chain) (listingId : Nat)
    (quantityDesired : Nat) (receiver : Option String) :
    MRes MarketplaceDirect TransactionResult :=
  let v := self.validateListing env listingId
  match v.result with
  | .error e => ⟨v.self, .error e, v.trace⟩
  | .ok listing =>
    if self.isStillValidListing env listing (some quantityDesired) then
      let buyFor := jsOrStr receiver env.signerAddress
      let quantity := quantityDesired
      let value := listing.buyoutPrice * quantity
      let t := v.trace ++
        [SdkAction.setAllowance value listing.currencyContractAddress,
         SdkAction.sendTx (.buy listingId buyFor quantity
           listing.currencyContractAddress value)]
      ⟨v.self, .ok ⟨()⟩, t⟩
    else
      ⟨v.self, .error (.generic
        "The asset on this listing has been moved from the lister wallet, this listing is now invalid"),
        v.trace⟩

/-- updateListing: submits the updateListing transaction, reusing the
buyout price for the reserve price. -/
def updateListing (self : MarketplaceDirect) (_env : Chain)
    (listing : DirectListing) : MRes MarketplaceDirect TransactionResult :=
  ⟨self, .ok ⟨()⟩, [SdkAction.sendTx (.updateListing listing.id
    listing.quantity listing.buyoutPrice listing.buyoutPrice
    listing.currencyContractAddress listing.startTimeInSeconds
    listing.secondsUntilEnd)]⟩

/-- cancelListing: submits the cancelDirectListing transaction. -/
def cancelListing (self : MarketplaceDirect) (_env : Chain)
    (listingId : Nat) : MRes MarketplaceDirect TransactionResult :=
  ⟨self, .ok ⟨()⟩, [SdkAction.sendTx (.cancelDirectListing listingId)]⟩

end MarketplaceDirect

/-- The ContractPrimarySale wrapper object: its two instance fields. -/
structure ContractPrimarySale where
  featureName : String
  contractWrapper : Nat
deriving DecidableEq, Repr

namespace ContractPrimarySale

/-- getRecipient: reads the primary sale recipient from the contract. -/
def getRecipient (self : ContractPrimarySale) (env : Chain) :
    MRes ContractPrimarySale String :=
  ⟨self, .ok env.primarySaleRecipient, []⟩

/-- setRecipient: submits the setPrimarySaleRecipient transaction. -/
def setRecipient (self : ContractPrimarySale) (_env : Chain)
    (recipient : String) : MRes ContractPrimarySale TransactionResult :=
  ⟨self, .ok ⟨()⟩, [SdkAction.sendTx (.setPrimarySaleRecipient recipient)]⟩

end ContractPrimarySale

/-- The Erc20BatchMintable wrapper object: its three instance fields. -/
structure Erc20BatchMintable where
  featureName : String
  contractWrapper : Nat
  erc20 : Nat
deriving DecidableEq, Repr

namespace Erc20BatchMintable

/-- The encoding loop of Erc20BatchMintable.to: iterates over the inputs
pushing one encoded mintTo call per input onto the accumulator. -/
def encodeLoop (env : Chain) : List TokenMintInput → List EncodedCall →
    List EncodedCall
  | [], acc => acc
  | arg :: rest, acc =>
    encodeLoop env rest
      (acc ++ [EncodedCall.mintTo arg.toAddress (env.normalizeAmount arg.amount)])

/-- Erc20BatchMintable.to: encodes one mintTo call per input with the
normalized amount and submits them all in a single multiCall. -/
def «to» (self : Erc20BatchMintable) (env : Chain)
    (args : List TokenMintInput) : MRes Erc20BatchMintable TransactionResult :=
  let encoded := encodeLoop env args []
  ⟨self, .ok ⟨()⟩, [SdkAction.multiCall encoded]⟩

end Erc20BatchMintable

/-!
Specification-shaped predicate for claim C1, written from the words of the
claim rather than from the code, to be compared with the code-derived
MarketplaceDirect.isStillValidListing.
-/

/-- The validity condition exactly as claim C1 words it: the marketplace
is approved for the token, and either the asset supports ERC721 and
ownerOf equals the seller case-insensitively, or the asset supports
ERC1155 and the seller balance is at least the supplied quantity (the
listing quantity when no quantity argument is supplied). -/
def isStillValidListingClaimC1 (self : MarketplaceDirect) (env : Chain)
    (listing : DirectListing) (quantity : Option Nat) : Prop :=
  env.approvedForMarketplace (self.getAddress env)
      listing.assetContractAddress listing.tokenId listing.sellerAddress
    = true ∧
  ((env.supportsInterface listing.assetContractAddress InterfaceId_IERC721
      = true ∧
    strToLower (env.ownerOf listing.assetContractAddress listing.tokenId) =
      strToLower listing.sellerAddress) ∨
   (env.supportsInterface listing.assetContractAddress InterfaceId_IERC1155
      = true ∧
    env.balanceOf listing.assetContractAddress listing.sellerAddress
        listing.tokenId
      ≥ quantity.getD listing.quantity))

/-!
Concrete example data used by counterexamples and witnesses.
-/

/-- An example MarketplaceDirect instance. -/
def exMk : MarketplaceDirect := ⟨0, 1⟩

/-- An example raw direct listing stored on the contract. -/
def exListingStruct : ListingStruct :=
  { listingId := 0
    tokenOwner := "0xSeller"
    assetContract := "0xAsset"
    tokenId := 7
    startTime := 100
    endTime := 200
    quantity := 5
    currency := "0xCurrency"
    reservePricePerToken := 1
    buyoutPricePerToken := 3
    listingType := ListingType.Direct }

/-- A baseline example oracle: one direct listing everywhere, no offers,
every address syntactically valid, nothing a native token. -/
def exChain : Chain :=
  { readContractAddress := "0xMarket"
    signerAddress := "0xSigner"
    blockTimestamp := 1000
    listings := fun _ => exListingStruct
    offers := fun _ _ =>
      { listingId := 0, offeror := AddressZero, quantityWanted := 1,
        currency := "0xCurrency", pricePerToken := 2 }
    isAddress := fun _ => true
    isNativeToken := fun _ => false
    normalizePrice := fun _ _ => 1500000
    approvedForMarketplace := fun _ _ _ _ => true
    supportsInterface := fun _ iid => iid = InterfaceId_IERC721
    ownerOf := fun _ _ => "0xSeller"
    balanceOf := fun _ _ _ => 10
    validNewListingParams := fun _ => true
    parseListingAddedIds := [42]
    fetchCurrencyValue := fun _ _ => "currencyValue"
    fetchTokenMetadata := fun _ _ => "metadata"
    mapOfferResult := fun _ _ => "mappedOffer"
    normalizeAmount := fun _ => 77
    primarySaleRecipient := "0xRecipient" }

/-- The DirectListing domain object for the example listing. -/
def exDL : DirectListing :=
  { assetContractAddress := "0xAsset"
    buyoutPrice := 3
    currencyContractAddress := "0xCurrency"
    buyoutCurrencyValuePerToken := "currencyValue"
    id := "0"
    tokenId := 7
    quantity := 5
    startTimeInSeconds := 100
    asset := "metadata"
    secondsUntilEnd := 200
    sellerAddress := "0xSeller"
    type := ListingType.Direct }

/-- Oracle where the asset supports both ERC721 and ERC1155, the token
owner is no longer the seller, but the seller still has ample ERC1155
balance. -/
def exChainBoth : Chain :=
  { exChain with
    supportsInterface := fun _ _ => true
    ownerOf := fun _ _ => "0xSomeoneElse" }

/-- Oracle where the asset supports only ERC1155 and the seller balance is
zero. -/
def exChain1155Zero : Chain :=
  { exChain with
    supportsInterface := fun _ iid => iid = InterfaceId_IERC1155
    balanceOf := fun _ _ _ => 0 }

/-- An example createListing input whose start timestamp lies before the
example block timestamp. -/
def exNewListing : NewDirectListing :=
  { assetContractAddress := "0xAsset"
    tokenId := 7
    startTimestampMs := 2000
    listingDurationInSeconds := 86400
    quantity := 1
    currencyContractAddress := "0xCurrency"
    buyoutPricePerToken := "1.5" }

/-- An example createListing input whose start timestamp lies after the
example block timestamp. -/
def exNewListingLate : NewDirectListing :=
  { exNewListing with startTimestampMs := 5000000 }

/-!
Helper lemmas shared by several claim proofs.
-/

/-- The start-time clamp of createListing is the binary maximum. -/
theorem ite_lt_eq_max (a b : Int) : (if a < b then b else a) = max a b := by
  rcases lt_or_le a b with h | h
  · rw [if_pos h, max_eq_right h.le]
  · rw [if_neg (not_lt.mpr h), max_eq_left h]

/-- Characterization of a successful getListing result. -/
theorem getListing_result_ok_iff (self : MarketplaceDirect) (env : Chain)
    (listingId : Nat) (L : DirectListing) :
    (self.getListing env listingId).result = .ok L ↔
      ((env.listings listingId).assetContract ≠ AddressZero ∧
       (env.listings listingId).listingType = ListingType.Direct ∧
       L = self.mapListing env (env.listings listingId)) := by
  simp only [MarketplaceDirect.getListing]
  split_ifs with h1 h2 <;> simp_all [eq_comm]

/-- The trace of getListing is always the single listings read. -/
theorem getListing_trace (self : MarketplaceDirect) (env : Chain)
    (listingId : Nat) :
    (self.getListing env listingId).trace =
      [SdkAction.readListing listingId] := by
  simp only [MarketplaceDirect.getListing]
  split_ifs <;> rfl

/-- The encoding loop of Erc20BatchMintable.to appends exactly one
encoded mintTo call per input, in input order. -/
theorem encodeLoop_eq_map (env : Chain) (args : List TokenMintInput)
    (acc : List EncodedCall) :
    Erc20BatchMintable.encodeLoop env args acc =
      acc ++ args.map (fun a =>
        EncodedCall.mintTo a.toAddress (env.normalizeAmount a.amount)) := by
  induction args generalizing acc with
  | nil => simp [Erc20BatchMintable.encodeLoop]
  | cons a rest ih =>
    simp [Erc20BatchMintable.encodeLoop, ih]

/-!
Claim theorems.
-/

/-- C1 counterexample: claim C1 states an if-and-only-if in which the
ERC721 ownership check and the ERC1155 balance check appear as a
disjunction, and in which a supplied quantity argument is always the
balance bound.  The code disagrees twice.  First, when the asset supports
both interfaces the code only runs the ERC721 ownership check, so with
the owner changed but ample ERC1155 balance the code returns false while
the claim predicate holds.  Second, a supplied quantity argument of 0 is
falsy in JavaScript, so the code falls back to listing.quantity (5, above
the zero balance) and returns false while the claim predicate (balance at
least 0) holds. -/
theorem C1_counterexample :
    (MarketplaceDirect.isStillValidListing exMk exChainBoth exDL (some 1)
        = false ∧
      isStillValidListingClaimC1 exMk exChainBoth exDL (some 1)) ∧
    (MarketplaceDirect.isStillValidListing exMk exChain1155Zero exDL (some 0)
        = false ∧
      isStillValidListingClaimC1 exMk exChain1155Zero exDL (some 0)) := by
  refine ⟨⟨by decide, ?_⟩, by decide, ?_⟩
  · exact ⟨rfl, Or.inr ⟨rfl, by decide⟩⟩
  · exact ⟨rfl, Or.inr ⟨rfl, by decide⟩⟩

/-- C1 (amended): isStillValidListing returns true iff the marketplace is
approved to transfer the listed token for the seller and: if the asset
contract supports ERC721, the current owner of the token equals the
listing seller compared case-insensitively (even when it also supports
ERC1155); otherwise, if it supports ERC1155, the seller balance of the
token is at least the quantity argument when a nonzero quantity is
supplied and at least listing.quantity otherwise; when it supports
neither interface the result is false. -/
theorem C1_isStillValidListing_amended (self : MarketplaceDirect)
    (env : Chain) (listing : DirectListing) (quantity : Option Nat) :
    self.isStillValidListing env listing quantity = true ↔
      (env.approvedForMarketplace (self.getAddress env)
          listing.assetContractAddress listing.tokenId listing.sellerAddress
        = true ∧
       ((env.supportsInterface listing.assetContractAddress
            InterfaceId_IERC721 = true ∧
         strToLower (env.ownerOf listing.assetContractAddress listing.tokenId)
           = strToLower listing.sellerAddress) ∨
        (env.supportsInterface listing.assetContractAddress
            InterfaceId_IERC721 = false ∧
         env.supportsInterface listing.assetContractAddress
            InterfaceId_IERC1155 = true ∧
         env.balanceOf listing.assetContractAddress listing.sellerAddress
            listing.tokenId ≥ jsOrNat quantity listing.quantity))) := by
  cases hA : env.approvedForMarketplace (self.getAddress env)
      listing.assetContractAddress listing.tokenId listing.sellerAddress <;>
    cases h7 : env.supportsInterface listing.assetContractAddress
        InterfaceId_IERC721 <;>
      cases h11 : env.supportsInterface listing.assetContractAddress
          InterfaceId_IERC1155 <;>
        simp [MarketplaceDirect.isStillValidListing, hA, h7, h11]

/-- C2: Erc20BatchMintable.to always succeeds, and its only action is a
single multiCall whose argument list has exactly one entry per input, in
input order, the i-th entry being the encoded mintTo call for the i-th
input address and the normalized i-th amount. -/
theorem C2_to_single_multicall (self : Erc20BatchMintable) (env : Chain)
    (args : List TokenMintInput) :
    (Erc20BatchMintable.«to» self env args).result = .ok ⟨()⟩ ∧
    (Erc20BatchMintable.«to» self env args).trace =
      [SdkAction.multiCall (args.map fun a =>
        EncodedCall.mintTo a.toAddress (env.normalizeAmount a.amount))] := by
  refine ⟨rfl, ?_⟩
  simp [Erc20BatchMintable.«to», encodeLoop_eq_map]

/-- Under valid parameters, the trace of createListing is the token
approval, the price normalization, and a single createListing
transaction with the given parameter struct. -/
theorem createListing_trace (self : MarketplaceDirect) (env : Chain)
    (listing : NewDirectListing)
    (h : env.validNewListingParams listing = true) :
    (self.createListing env listing).trace =
      [SdkAction.handleTokenApproval (self.getAddress env)
         listing.assetContractAddress listing.tokenId env.signerAddress,
       SdkAction.normalizePriceCall listing.buyoutPricePerToken
         listing.currencyContractAddress,
       SdkAction.sendTx (TxCall.createListing
         { assetContract := listing.assetContractAddress
           tokenId := listing.tokenId
           buyoutPricePerToken := env.normalizePrice
             listing.buyoutPricePerToken listing.currencyContractAddress
           currencyToAccept := listing.currencyContractAddress
           listingType := ListingType.Direct
           quantityToList := listing.quantity
           reservePricePerToken := env.normalizePrice
             listing.buyoutPricePerToken listing.currencyContractAddress
           secondsUntilEndTime := listing.listingDurationInSeconds
           startTime := max (Int.fdiv listing.startTimestampMs 1000)
             (env.blockTimestamp : Int) })] := by
  simp [MarketplaceDirect.createListing, h, ite_lt_eq_max]

/-- C3: under valid parameters, createListing sends exactly one
createListing transaction, and its parameter struct carries the
normalizePriceValue result of the buyout price for the listing currency
as the buyoutPricePerToken, the same single value as the
reservePricePerToken, and the Direct listing type. -/
theorem C3_createListing_normalized_price (self : MarketplaceDirect)
    (env : Chain) (listing : NewDirectListing)
    (h : env.validNewListingParams listing = true) :
    ∃ p : ListingParams,
      SdkAction.sendTx (TxCall.createListing p) ∈
        (self.createListing env listing).trace ∧
      (∀ q : ListingParams,
        SdkAction.sendTx (TxCall.createListing q) ∈
          (self.createListing env listing).trace → q = p) ∧
      p.buyoutPricePerToken =
        env.normalizePrice listing.buyoutPricePerToken
          listing.currencyContractAddress ∧
      p.reservePricePerToken = p.buyoutPricePerToken ∧
      p.listingType = ListingType.Direct := by
  rw [createListing_trace self env listing h]
  refine ⟨⟨listing.assetContractAddress, listing.tokenId,
    env.normalizePrice listing.buyoutPricePerToken
      listing.currencyContractAddress,
    listing.currencyContractAddress, ListingType.Direct, listing.quantity,
    env.normalizePrice listing.buyoutPricePerToken
      listing.currencyContractAddress,
    listing.listingDurationInSeconds,
    max (Int.fdiv listing.startTimestampMs 1000)
      (env.blockTimestamp : Int)⟩, by simp, ?_, rfl, rfl, rfl⟩
  intro q hq
  simpa using hq

/-- C3 witness: the hypothesis holds and the conclusion follows at the
concrete example input. -/
theorem C3_witness :
    exChain.validNewListingParams exNewListing = true ∧
    ∃ p : ListingParams,
      SdkAction.sendTx (TxCall.createListing p) ∈
        (exMk.createListing exChain exNewListing).trace ∧
      (∀ q : ListingParams,
        SdkAction.sendTx (TxCall.createListing q) ∈
          (exMk.createListing exChain exNewListing).trace → q = p) ∧
      p.buyoutPricePerToken =
        exChain.normalizePrice exNewListing.buyoutPricePerToken
          exNewListing.currencyContractAddress ∧
      p.reservePricePerToken = p.buyoutPricePerToken ∧
      p.listingType = ListingType.Direct :=
  ⟨rfl, C3_createListing_normalized_price exMk exChain exNewListing rfl⟩

/-- C9: under valid parameters, the startTime field of the submitted
createListing parameters is the maximum of the floor of the listing
start timestamp in seconds and the latest block timestamp, and in
particular never lies before the block timestamp. -/
theorem C9_createListing_start_time (self : MarketplaceDirect)
    (env : Chain) (listing : NewDirectListing)
    (h : env.validNewListingParams listing = true) :
    ∃ p : ListingParams,
      SdkAction.sendTx (TxCall.createListing p) ∈
        (self.createListing env listing).trace ∧
      p.startTime = max (Int.fdiv listing.startTimestampMs 1000)
        (env.blockTimestamp : Int) ∧
      (env.blockTimestamp : Int) ≤ p.startTime := by
  rw [createListing_trace self env listing h]
  exact ⟨⟨listing.assetContractAddress, listing.tokenId,
    env.normalizePrice listing.buyoutPricePerToken
      listing.currencyContractAddress,
    listing.currencyContractAddress, ListingType.Direct, listing.quantity,
    env.normalizePrice listing.buyoutPricePerToken
      listing.currencyContractAddress,
    listing.listingDurationInSeconds,
    max (Int.fdiv listing.startTimestampMs 1000)
      (env.blockTimestamp : Int)⟩, by simp, rfl, le_max_right _ _⟩

/-- C9 witness: the hypothesis holds and the conclusion follows at a
concrete input whose start timestamp lies after the block time. -/
theorem C9_witness :
    exChain.validNewListingParams exNewListingLate = true ∧
    ∃ p : ListingParams,
      SdkAction.sendTx (TxCall.createListing p) ∈
        (exMk.createListing exChain exNewListingLate).trace ∧
      p.startTime = max (Int.fdiv exNewListingLate.startTimestampMs 1000)
        (exChain.blockTimestamp : Int) ∧
      (exChain.blockTimestamp : Int) ≤ p.startTime :=
  ⟨rfl, C9_createListing_start_time exMk exChain exNewListingLate rfl⟩

/-- Oracle whose stored listing has the zero asset contract. -/
def exChainZero : Chain :=
  { exChain with
    listings := fun _ => { exListingStruct with assetContract := AddressZero } }

/-- Oracle whose stored listing is an auction listing. -/
def exChainAuction : Chain :=
  { exChain with
    listings := fun _ =>
      { exListingStruct with listingType := ListingType.Auction } }

/-- Oracle that deems the offer currency a native token. -/
def exChainNative : Chain :=
  { exChain with isNativeToken := fun _ => true }

/-- Oracle that deems every address syntactically invalid. -/
def exChainBadAddr : Chain :=
  { exChain with isAddress := fun _ => false }

/-- The object state returned by getListing equals the receiver. -/
theorem getListing_self (self : MarketplaceDirect) (env : Chain)
    (listingId : Nat) : (self.getListing env listingId).self = self := by
  simp only [MarketplaceDirect.getListing]
  split_ifs <;> rfl

/-- C4: buyoutListing throws and sends no buy transaction whenever the
listing is fetched successfully but isStillValidListing is false, and
conversely any buy transaction in its trace implies the listing was
found, was of Direct type, and isStillValidListing returned true. -/
theorem C4_buyoutListing_validity_gate (self : MarketplaceDirect)
    (env : Chain) (listingId quantityDesired : Nat)
    (receiver : Option String) :
    (∀ L, (self.getListing env listingId).result = .ok L →
      self.isStillValidListing env L (some quantityDesired) = false →
      (∃ e, (self.buyoutListing env listingId quantityDesired receiver).result
          = .error e) ∧
      ∀ a b c d v, SdkAction.sendTx (TxCall.buy a b c d v) ∉
        (self.buyoutListing env listingId quantityDesired receiver).trace) ∧
    (∀ a b c d v, SdkAction.sendTx (TxCall.buy a b c d v) ∈
        (self.buyoutListing env listingId quantityDesired receiver).trace →
      ∃ L, (self.getListing env listingId).result = .ok L ∧
        (env.listings listingId).assetContract ≠ AddressZero ∧
        (env.listings listingId).listingType = ListingType.Direct ∧
        self.isStillValidListing env L (some quantityDesired) = true) := by
  have ht := getListing_trace self env listingId
  simp only [MarketplaceDirect.buyoutListing, MarketplaceDirect.validateListing]
  cases hg : (self.getListing env listingId).result with
  | error e =>
    constructor
    · intro L hL
      exact absurd hL (by simp)
    · intro a b c d v hmem
      rw [ht] at hmem
      simp at hmem
  | ok L0 =>
    cases hv : self.isStillValidListing env L0 (some quantityDesired) with
    | false =>
      constructor
      · intro L hL _
        obtain rfl : L0 = L := by simpa using hL
        refine ⟨⟨.generic
          "The asset on this listing has been moved from the lister wallet, this listing is now invalid",
          by simp [hv]⟩, ?_⟩
        intro a b c d v hmem
        simp only [hv] at hmem
        rw [ht] at hmem
        simp at hmem
      · intro a b c d v hmem
        simp only [hv] at hmem
        rw [ht] at hmem
        simp at hmem
    | true =>
      have hcond := (getListing_result_ok_iff self env listingId L0).mp hg
      constructor
      · intro L hL hfalse
        obtain rfl : L0 = L := by simpa using hL
        rw [hv] at hfalse
        cases hfalse
      · intro a b c d v _
        exact ⟨L0, rfl, hcond.1, hcond.2.1, hv⟩

/-- C4 witness: at a concrete oracle where the listing is found but no
longer valid, buyoutListing throws and its trace holds no buy
transaction. -/
theorem C4_witness :
    (exMk.getListing exChainBoth 0).result = .ok exDL ∧
    exMk.isStillValidListing exChainBoth exDL (some 2) = false ∧
    (∃ e, (exMk.buyoutListing exChainBoth 0 2 none).result = .error e) ∧
    (∀ a b c d v, SdkAction.sendTx (TxCall.buy a b c d v) ∉
      (exMk.buyoutListing exChainBoth 0 2 none).trace) :=
  have h1 : (exMk.getListing exChainBoth 0).result = .ok exDL := by rfl
  have h2 : exMk.isStillValidListing exChainBoth exDL (some 2) = false := by
    decide
  ⟨h1, h2,
    ((C4_buyoutListing_validity_gate exMk exChainBoth 0 2 none).1 exDL h1 h2).1,
    ((C4_buyoutListing_validity_gate exMk exChainBoth 0 2 none).1 exDL h1 h2).2⟩

/-- C6: getListing throws ListingNotFoundError exactly when the fetched
listing has the zero asset contract, throws WrongListingTypeError when
the asset contract is nonzero but the listing type is not Direct, and
otherwise returns the mapped DirectListing; the error cases never return
a mapped result. -/
theorem C6_getListing_cases (self : MarketplaceDirect) (env : Chain)
    (listingId : Nat) :
    ((env.listings listingId).assetContract = AddressZero →
      (self.getListing env listingId).result =
        .error (.listingNotFound (self.getAddress env)
          (toString listingId))) ∧
    ((env.listings listingId).assetContract ≠ AddressZero →
      (env.listings listingId).listingType ≠ ListingType.Direct →
      (self.getListing env listingId).result =
        .error (.wrongListingType (self.getAddress env) (toString listingId)
          "Auction" "Direct")) ∧
    ((env.listings listingId).assetContract ≠ AddressZero →
      (env.listings listingId).listingType = ListingType.Direct →
      (self.getListing env listingId).result =
        .ok (self.mapListing env (env.listings listingId))) :=
  ⟨fun h1 => by simp [MarketplaceDirect.getListing, h1],
   fun h1 h2 => by simp [MarketplaceDirect.getListing, h1, h2],
   fun h1 h2 => by simp [MarketplaceDirect.getListing, h1, h2]⟩

/-- C6 witness: at concrete oracles, the zero-address listing yields
ListingNotFoundError and the auction listing yields
WrongListingTypeError. -/
theorem C6_witness :
    ((exChainZero.listings 0).assetContract = AddressZero ∧
      (exMk.getListing exChainZero 0).result =
        .error (.listingNotFound (exMk.getAddress exChainZero)
          (toString (0 : Nat)))) ∧
    ((exChainAuction.listings 0).assetContract ≠ AddressZero ∧
      (exChainAuction.listings 0).listingType ≠ ListingType.Direct ∧
      (exMk.getListing exChainAuction 0).result =
        .error (.wrongListingType (exMk.getAddress exChainAuction)
          (toString (0 : Nat)) "Auction" "Direct")) :=
  ⟨⟨rfl, (C6_getListing_cases exMk exChainZero 0).1 rfl⟩,
   ⟨by decide, by decide,
    (C6_getListing_cases exMk exChainAuction 0).2.1 (by decide) (by decide)⟩⟩

/-- C5: makeOffer with a native-token currency throws immediately, with
no price normalization, allowance setting or transaction in its trace;
with a non-native currency and a successfully fetched listing it submits
the offer transaction. -/
theorem C5_makeOffer_native_guard (self : MarketplaceDirect) (env : Chain)
    (listingId quantityDesired : Nat) (currency : String)
    (pricePerToken : Price) (expirationDateMs : Option Int) :
    (env.isNativeToken currency = true →
      (self.makeOffer env listingId quantityDesired currency pricePerToken
        expirationDateMs).result =
        .error (.generic
          "You must use the wrapped native token address when making an offer with a native token") ∧
      (self.makeOffer env listingId quantityDesired currency pricePerToken
        expirationDateMs).trace = []) ∧
    (env.isNativeToken currency = false →
      ∀ L, (self.getListing env listingId).result = .ok L →
        (self.makeOffer env listingId quantityDesired currency pricePerToken
          expirationDateMs).result = .ok ⟨()⟩ ∧
        ∃ exp, SdkAction.sendTx (TxCall.offer listingId quantityDesired
          currency (env.normalizePrice pricePerToken currency) exp) ∈
            (self.makeOffer env listingId quantityDesired currency
              pricePerToken expirationDateMs).trace) := by
  constructor
  · intro h
    exact ⟨by simp [MarketplaceDirect.makeOffer, h],
      by simp [MarketplaceDirect.makeOffer, h]⟩
  · intro h L hL
    cases expirationDateMs with
    | none =>
      exact ⟨by simp [MarketplaceDirect.makeOffer, h, hL], MaxUint256,
        by simp [MarketplaceDirect.makeOffer, h, hL]⟩
    | some ms =>
      exact ⟨by simp [MarketplaceDirect.makeOffer, h, hL], Int.fdiv ms 1000,
        by simp [MarketplaceDirect.makeOffer, h, hL]⟩

/-- C5 witness: at concrete oracles, the native-token call throws with an
empty trace, and the non-native call with a valid listing submits the
offer transaction. -/
theorem C5_witness :
    (exChainNative.isNativeToken "0xNative" = true ∧
      (exMk.makeOffer exChainNative 0 1 "0xNative" "1.5" none).result =
        .error (.generic
          "You must use the wrapped native token address when making an offer with a native token") ∧
      (exMk.makeOffer exChainNative 0 1 "0xNative" "1.5" none).trace = []) ∧
    (exChain.isNativeToken "0xCurrency" = false ∧
      (exMk.getListing exChain 0).result = .ok exDL ∧
      (exMk.makeOffer exChain 0 1 "0xCurrency" "1.5" none).result =
        .ok ⟨()⟩ ∧
      ∃ exp, SdkAction.sendTx (TxCall.offer 0 1 "0xCurrency"
        (exChain.normalizePrice "1.5" "0xCurrency") exp) ∈
          (exMk.makeOffer exChain 0 1 "0xCurrency" "1.5" none).trace) :=
  have hok : (exMk.getListing exChain 0).result = .ok exDL := by rfl
  ⟨⟨rfl,
    (C5_makeOffer_native_guard exMk exChainNative 0 1 "0xNative" "1.5"
      none).1 rfl⟩,
   ⟨rfl, hok,
    (C5_makeOffer_native_guard exMk exChain 0 1 "0xCurrency" "1.5"
      none).2 rfl exDL hok⟩⟩

/-- C7: the ERC20 allowance value in makeOffer is the exact integer
product of the normalized offer price and the desired quantity, and in
buyoutListing both the allowance value and the value field of the buy
transaction are the exact integer product of the listing buyout price
and the desired quantity. -/
theorem C7_exact_integer_value (self : MarketplaceDirect) (env : Chain)
    (listingId quantityDesired : Nat) (currency : String)
    (pricePerToken : Price) (expirationDateMs : Option Int)
    (receiver : Option String) :
    (env.isNativeToken currency = false →
      ∀ L, (self.getListing env listingId).result = .ok L →
        SdkAction.setAllowance
          (env.normalizePrice pricePerToken currency * quantityDesired)
          currency ∈
          (self.makeOffer env listingId quantityDesired currency pricePerToken
            expirationDateMs).trace) ∧
    (∀ L, (self.getListing env listingId).result = .ok L →
      self.isStillValidListing env L (some quantityDesired) = true →
        SdkAction.setAllowance (L.buyoutPrice * quantityDesired)
          L.currencyContractAddress ∈
          (self.buyoutListing env listingId quantityDesired receiver).trace ∧
        SdkAction.sendTx (TxCall.buy listingId
          (jsOrStr receiver env.signerAddress) quantityDesired
          L.currencyContractAddress (L.buyoutPrice * quantityDesired)) ∈
          (self.buyoutListing env listingId quantityDesired receiver).trace) := by
  constructor
  · intro h L hL
    simp [MarketplaceDirect.makeOffer, h, hL]
  · intro L hL hv
    constructor <;>
      simp [MarketplaceDirect.buyoutListing, MarketplaceDirect.validateListing,
        hL, hv]

/-- C7 witness: at the concrete oracle both allowance values and the buy
value are the stated exact products. -/
theorem C7_witness :
    (exChain.isNativeToken "0xCurrency" = false ∧
      (exMk.getListing exChain 0).result = .ok exDL ∧
      SdkAction.setAllowance
        (exChain.normalizePrice "1.5" "0xCurrency" * 2) "0xCurrency" ∈
        (exMk.makeOffer exChain 0 2 "0xCurrency" "1.5" none).trace) ∧
    (exMk.isStillValidListing exChain exDL (some 2) = true ∧
      SdkAction.setAllowance (exDL.buyoutPrice * 2)
        exDL.currencyContractAddress ∈
        (exMk.buyoutListing exChain 0 2 none).trace ∧
      SdkAction.sendTx (TxCall.buy 0 (jsOrStr none exChain.signerAddress) 2
        exDL.currencyContractAddress (exDL.buyoutPrice * 2)) ∈
        (exMk.buyoutListing exChain 0 2 none).trace) :=
  have hok : (exMk.getListing exChain 0).result = .ok exDL := by rfl
  have hv : exMk.isStillValidListing exChain exDL (some 2) = true := by decide
  ⟨⟨rfl, hok,
    (C7_exact_integer_value exMk exChain 0 2 "0xCurrency" "1.5" none
      none).1 rfl exDL hok⟩,
   ⟨hv,
    (C7_exact_integer_value exMk exChain 0 2 "0xCurrency" "1.5" none
      none).2 exDL hok hv⟩⟩

/-- C10: getActiveOffer returns none rather than throwing whenever the
stored offer has the zero offeror (for a valid listing and address), and
for a syntactically invalid address it throws without reading any offer
from the contract. -/
theorem C10_getActiveOffer_behaviour (self : MarketplaceDirect)
    (env : Chain) (listingId : Nat) (address : String) :
    (env.isAddress address = false →
      (∃ e, (self.getActiveOffer env listingId address).result = .error e) ∧
      SdkAction.readOffer listingId address ∉
        (self.getActiveOffer env listingId address).trace) ∧
    (env.isAddress address = true →
      ∀ L, (self.getListing env listingId).result = .ok L →
        (env.offers listingId address).offeror = AddressZero →
        (self.getActiveOffer env listingId address).result = .ok none) := by
  have ht := getListing_trace self env listingId
  constructor
  · intro h
    simp only [MarketplaceDirect.getActiveOffer,
      MarketplaceDirect.validateListing]
    cases hg : (self.getListing env listingId).result with
    | error e =>
      refine ⟨⟨e, by simp⟩, ?_⟩
      rw [ht]
      simp
    | ok L =>
      refine ⟨⟨.invariantViolation "Address must be a valid address",
        by simp [h]⟩, ?_⟩
      simp only [h]
      rw [ht]
      simp
  · intro h L hL hoff
    simp [MarketplaceDirect.getActiveOffer, MarketplaceDirect.validateListing,
      hL, h, hoff]

/-- C10 witness: at concrete oracles, the invalid address throws without
an offer read, and the zero offeror yields none. -/
theorem C10_witness :
    (exChainBadAddr.isAddress "0xBuyer" = false ∧
      (∃ e, (exMk.getActiveOffer exChainBadAddr 0 "0xBuyer").result =
        .error e) ∧
      SdkAction.readOffer 0 "0xBuyer" ∉
        (exMk.getActiveOffer exChainBadAddr 0 "0xBuyer").trace) ∧
    (exChain.isAddress "0xBuyer" = true ∧
      (exMk.getListing exChain 0).result = .ok exDL ∧
      (exChain.offers 0 "0xBuyer").offeror = AddressZero ∧
      (exMk.getActiveOffer exChain 0 "0xBuyer").result = .ok none) :=
  have hok : (exMk.getListing exChain 0).result = .ok exDL := by rfl
  ⟨⟨rfl,
    (C10_getActiveOffer_behaviour exMk exChainBadAddr 0 "0xBuyer").1 rfl⟩,
   ⟨rfl, hok, rfl,
    (C10_getActiveOffer_behaviour exMk exChain 0 "0xBuyer").2 rfl exDL hok
      rfl⟩⟩

/-- C8: no public method of MarketplaceDirect, ContractPrimarySale or
Erc20BatchMintable changes any instance field of its object: the object
state returned by every method equals the receiver, for every oracle and
every argument. -/
theorem C8_no_field_mutation :
    (∀ (self : MarketplaceDirect) (env : Chain) (i : Nat),
      (self.getListing env i).self = self) ∧
    (∀ (self : MarketplaceDirect) (env : Chain) (i : Nat) (a : String),
      (self.getActiveOffer env i a).self = self) ∧
    (∀ (self : MarketplaceDirect) (env : Chain) (l : NewDirectListing),
      (self.createListing env l).self = self) ∧
    (∀ (self : MarketplaceDirect) (env : Chain) (i q : Nat) (c : String)
      (p : Price) (e : Option Int),
      (self.makeOffer env i q c p e).self = self) ∧
    (∀ (self : MarketplaceDirect) (env : Chain) (i : Nat) (a : String),
      (self.acceptOffer env i a).self = self) ∧
    (∀ (self : MarketplaceDirect) (env : Chain) (i q : Nat)
      (r : Option String),
      (self.buyoutListing env i q r).self = self) ∧
    (∀ (self : MarketplaceDirect) (env : Chain) (l : DirectListing),
      (self.updateListing env l).self = self) ∧
    (∀ (self : MarketplaceDirect) (env : Chain) (i : Nat),
      (self.cancelListing env i).self = self) ∧
    (∀ (self : ContractPrimarySale) (env : Chain),
      (self.getRecipient env).self = self) ∧
    (∀ (self : ContractPrimarySale) (env : Chain) (r : String),
      (self.setRecipient env r).self = self) ∧
    (∀ (self : Erc20BatchMintable) (env : Chain)
      (args : List TokenMintInput),
      (Erc20BatchMintable.«to» self env args).self = self) := by
  refine ⟨getListing_self, ?_, ?_, ?_, ?_, ?_, fun _ _ _ => rfl,
    fun _ _ _ => rfl, fun _ _ => rfl, fun _ _ _ => rfl, fun _ _ _ => rfl⟩
  · intro self env i a
    simp only [MarketplaceDirect.getActiveOffer,
      MarketplaceDirect.validateListing]
    cases hg : (self.getListing env i).result with
    | error e => exact getListing_self self env i
    | ok L =>
      split_ifs <;> simp [getListing_self]
  · intro self env l
    simp only [MarketplaceDirect.createListing]
    split_ifs <;> rfl
  · intro self env i q c p e
    simp only [MarketplaceDirect.makeOffer]
    split_ifs with h
    · rfl
    · cases hg : (self.getListing env i).result with
      | error er => exact getListing_self self env i
      | ok L => exact getListing_self self env i
  · intro self env i a
    simp only [MarketplaceDirect.acceptOffer,
      MarketplaceDirect.validateListing]
    cases hg : (self.getListing env i).result with
    | error e => exact getListing_self self env i
    | ok L => exact getListing_self self env i
  · intro self env i q r
    simp only [MarketplaceDirect.buyoutListing,
      MarketplaceDirect.validateListing]
    cases hg : (self.getListing env i).result with
    | error e => exact getListing_self self env i
    | ok L =>
      dsimp only
      split_ifs <;> simp [getListing_self]
